import Mathlib

/-!
Shallow embedding of `src/spritze/application/global_container.py`:
the process-wide registry state (`init`, `_get_container`), the
multi-registry fallback resolvers (`_try_resolve_sync`, `_try_resolve_async`),
container-sequence normalization (`_normalize_containers`), the per
(container, callable) inner-wrapper cache (`_get_inner` with `_WRAPPER_CACHE`),
and the `inject` wrapper factory (signature residue and sync/async branching).
ResolutionOperation teardown bookkeeping, whose sources are not part of the
reviewed tree, is modelled from the specification where noted.
-/

namespace Spritze

/-- Exception values of the layers `global_container.py` interacts with:
`DependencyNotFound` and `InvalidProvider` (imported from
`spritze.infrastructure.exceptions`, each carrying the requested type),
the other resolution failures the spec's taxonomy names, plus the
`RuntimeError` of `_get_container` and the `ValueError` of `init`.
The payload `t : Nat` stands for the Python object identity of the type
argument (0 encodes the class `object`). -/
inductive PyError where
  | dependencyNotFound (t : Nat)
  | invalidProvider (t : Nat)
  | cycleDetected (t : Nat)
  | contextValueMissing (t : Nat)
  | runtimeError
  | valueError
  | otherError (n : Nat)
  deriving DecidableEq, Repr

/-- The `except (DependencyNotFound, InvalidProvider)` clause of
`_try_resolve_sync` / `_try_resolve_async`: exactly these two exception
classes are caught; everything else propagates. -/
def isRecoverable : PyError → Bool
  | .dependencyNotFound _ => true
  | .invalidProvider _ => true
  | _ => false

/-- Python values that may be passed to `init` and flow into
`_normalize_containers`: a single `Container` object, a `list` of
containers, a `tuple` of containers, or some other object (for instance a
`Sequence` implementation that is neither `list` nor `tuple`); the `id`
fields stand for object identity. -/
inductive PyValue where
  | container (id : Nat)
  | listVal (cs : List PyValue)
  | tupleVal (cs : List PyValue)
  | otherSeq (id : Nat) (cs : List PyValue)

/-- `isinstance(container, (list, tuple))`. -/
def isListOrTuple : PyValue → Bool
  | .listVal _ => true
  | .tupleVal _ => true
  | _ => false

/-- `isinstance(container, (list, tuple)) and not container`: the guard of
`init`'s `ValueError`.  Python truthiness of a list or tuple is emptiness. -/
def isEmptyListOrTuple : PyValue → Bool
  | .listVal [] => true
  | .tupleVal [] => true
  | _ => false

/-- Outcome of one call to `init`: the exception raised, if any, and the
value of the module-global `_default_container` afterwards (`none` while no
`init` call has succeeded). -/
structure InitResult where
  raised : Option PyError
  state : Option PyValue

/-- `init(container)`: raise `ValueError` on an empty `list`/`tuple`
(before the assignment, so the global keeps its previous value `st`);
otherwise overwrite `_default_container` with the argument as given. -/
def init (container : PyValue) (st : Option PyValue) : InitResult :=
  if isEmptyListOrTuple container then ⟨some .valueError, st⟩
  else ⟨none, some container⟩

/-- `_get_container()`: read the global; raise `RuntimeError` if no global
container has been set. -/
def getContainer (st : Option PyValue) : Except PyError PyValue :=
  match st with
  | none => .error .runtimeError
  | some c => .ok c

/-- `_normalize_containers(containers)`: a `list` or `tuple` is used as the
container sequence itself; any other value is wrapped into the one-element
tuple `(containers,)`. -/
def normalizeContainers : PyValue → List PyValue
  | .listVal cs => cs
  | .tupleVal cs => cs
  | v => [v]

/-- Loop body of `_try_resolve_sync`: `results` lists, in registry order,
what `inner(*args, **kwargs)` does for each container (its return value or
the exception it raises); `last` is the `last_exc` accumulator.  A
recoverable error is stored and the loop continues; any other error
propagates at once.  After the loop, `last_exc` is re-raised if set,
otherwise `DependencyNotFound(object)` is raised. -/
def tryResolveGo {α : Type} (last : Option PyError) :
    List (Except PyError α) → Except PyError α
  | [] =>
      match last with
      | some e => .error e
      | none => .error (.dependencyNotFound 0)
  | r :: rest =>
      match r with
      | .ok v => .ok v
      | .error e =>
          if isRecoverable e then tryResolveGo (some e) rest else .error e

/-- `_try_resolve_sync(container_list, func, *args, **kwargs)`, with each
container's inner-call behaviour already tabulated in registry order. -/
def tryResolveSync {α : Type} (results : List (Except PyError α)) :
    Except PyError α :=
  tryResolveGo none results

/-- Loop body of `_try_resolve_async`; textually the same control flow as
the synchronous loop (the `await` only suspends, it does not change which
exceptions are caught or the iteration order). -/
def tryResolveAsyncGo {α : Type} (last : Option PyError) :
    List (Except PyError α) → Except PyError α
  | [] =>
      match last with
      | some e => .error e
      | none => .error (.dependencyNotFound 0)
  | r :: rest =>
      match r with
      | .ok v => .ok v
      | .error e =>
          if isRecoverable e then tryResolveAsyncGo (some e) rest else .error e

/-- `_try_resolve_async(container_list, func, *args, **kwargs)`. -/
def tryResolveAsync {α : Type} (results : List (Except PyError α)) :
    Except PyError α :=
  tryResolveAsyncGo none results

/-- How many containers of the sequence the loop actually touches (one
`_get_inner` plus one `inner(...)` call per touched container): the loop
stops at the first success or at the first non-recoverable error. -/
def triedCount {α : Type} : List (Except PyError α) → Nat
  | [] => 0
  | r :: rest =>
      match r with
      | .ok _ => 1
      | .error e => if isRecoverable e then 1 + triedCount rest else 1

/-- One parameter of a Python callable's signature: its name and whether
its annotation carries a dependency marker. -/
structure Param where
  name : String
  hasDependencyMarker : Bool
  deriving DecidableEq, Repr

/-- Modelled from the spec:
`ResolutionService.extract_dependencies_from_signature` lives in
`spritze/services/resolution_service.py`, which is not among the sources
under review.  Per the spec the Dependency Extractor "classifies each
parameter as `resolve from registry` (carries a dependency marker) or
`caller-supplied`"; its result `deps` is the collection of names of the
marker-carrying parameters. -/
def extractDependencies (sig : List Param) : List String :=
  (sig.filter (fun p => p.hasDependencyMarker)).map (fun p => p.name)

/-- Body of `inject._get_new_signature` after the cache check:
`[param for name, param in sig.parameters.items() if name not in deps]`,
then `sig.replace(parameters=new_params)`. -/
def newSignature (sig : List Param) : List Param :=
  sig.filter (fun p => p.name ∉ extractDependencies sig)

/-- `inject._get_new_signature` with its `_sig_cache` one-slot memo: returns
the signature handed out, the updated cache slot, and how many times the
residual-signature computation actually ran (0 or 1). -/
def getNewSignatureCached (cache : Option (List Param)) (sig : List Param) :
    List Param × Option (List Param) × Nat :=
  match cache with
  | some s => (s, some s, 0)
  | none => (newSignature sig, some (newSignature sig), 1)

/-- The aspects of a Python callable that `inject` inspects: its object
identity, `inspect.iscoroutinefunction`, and its signature. -/
structure PyCallable where
  id : Nat
  isCoroutineFunction : Bool
  params : List Param
  deriving DecidableEq, Repr

/-- Which of the two wrapper shapes `inject` built: the `async def
_awrapper` (a coroutine function) or the plain `def _swrapper`. -/
inductive WrappedForm where
  | syncWrapper
  | asyncWrapper
  deriving DecidableEq, Repr

/-- Whether the wrapped form is itself a coroutine function. -/
def WrappedForm.isCoroutine : WrappedForm → Bool
  | .syncWrapper => false
  | .asyncWrapper => true

/-- The wrapped callable `inject` returns: its shape, the `__signature__` it
exposes, and its call behaviour.  `call` takes the value of the global
`_default_container` at invocation time (the wrapper body reads it via
`_get_container()` only when invoked) and, for each container object, what
that container's inner wrapped call does with the given arguments. -/
structure Wrapper (α : Type) where
  form : WrappedForm
  signature : List Param
  call : Option PyValue → (PyValue → Except PyError α) → Except PyError α

/-- `inject(func)`: branch on `inspect.iscoroutinefunction(func)` to pick
the wrapper shape; either wrapper body normalizes the invocation-time global
container value and runs the matching fallback loop; the exposed
`__signature__` is the residual signature. -/
def inject (α : Type) (f : PyCallable) : Wrapper α :=
  { form := if f.isCoroutineFunction then .asyncWrapper else .syncWrapper
    signature := newSignature f.params
    call := fun st behavior =>
      match getContainer st with
      | .error e => .error e
      | .ok c =>
          if f.isCoroutineFunction then
            tryResolveAsync ((normalizeContainers c).map behavior)
          else
            tryResolveSync ((normalizeContainers c).map behavior) }

/-- `inject` applied while the global `_default_container` holds
`stateAtCreation`: the body of `inject` never reads the global (only the
wrapper bodies do, at call time), so the produced wrapper is the same
whatever the global held at wrap time. -/
def injectAtTime (α : Type) (stateAtCreation : Option PyValue)
    (f : PyCallable) : Wrapper α :=
  inject α f

/-- State surrounding `_get_inner`: `_WRAPPER_CACHE` as an association list
(container id ↦ association list (callable id ↦ inner wrapper id); lookups
take the most recent binding, which models dict update), a fresh-object
counter standing for allocation of new inner wrappers by
`container.injector()(func)`, and the log of (container, callable) pairs on
which that injector generator actually ran. -/
structure InnerCacheState where
  cache : List (Nat × List (Nat × Nat))
  nextId : Nat
  injectorCalls : List (Nat × Nat)
  deriving DecidableEq, Repr

/-- `_get_inner(container, func)`: look up the container's mapping (create
it empty if absent), then the callable's inner wrapper; on a miss run
`container.injector()(func)` (allocating a fresh object and logging the
call) and store the result. -/
def getInner (st : InnerCacheState) (c f : Nat) : Nat × InnerCacheState :=
  let mapping := (st.cache.lookup c).getD []
  match mapping.lookup f with
  | some inner => (inner, st)
  | none =>
      (st.nextId,
       { cache := (c, (f, st.nextId) :: mapping) :: st.cache
         nextId := st.nextId + 1
         injectorCalls := st.injectorCalls ++ [(c, f)] })

/-- Modelled from the spec: the `ResolutionOperation` sources
(`spritze/services/resolution_service.py` and the lifecycle modules) are not
among the sources under review.  Per the spec a ResolutionOperation owns
"an ordered list of pending teardown actions", appended as resources are
acquired. -/
structure ResolutionOperation (τ : Type) where
  pendingTeardowns : List τ

/-- A fresh operation, opened with no pending teardowns. -/
def ResolutionOperation.opened {τ : Type} : ResolutionOperation τ := ⟨[]⟩

/-- Acquiring a setup/teardown resource appends its teardown action to the
operation's pending list. -/
def ResolutionOperation.acquire {τ : Type} (op : ResolutionOperation τ)
    (t : τ) : ResolutionOperation τ :=
  ⟨op.pendingTeardowns ++ [t]⟩

/-- How the wrapped call ended: normal return, an exception, or
cancellation. -/
inductive CallOutcome where
  | returned
  | raisedExc
  | cancelled
  deriving DecidableEq, Repr

/-- Modelled from the spec: the operation is destroyed "after running all
pending teardown actions in strict reverse order of acquisition — when that
callable returns, raises, or is cancelled"; the list returned is the order
in which the teardown actions run, the same for every outcome. -/
def ResolutionOperation.close {τ : Type} (op : ResolutionOperation τ)
    (outcome : CallOutcome) : List τ :=
  op.pendingTeardowns.reverse

/-! ## Helper lemmas -/

/-- The asynchronous fallback loop has the same value-level behaviour as the
synchronous one (the `await` is only a suspension point). -/
lemma tryResolveAsyncGo_eq_go {α : Type} (acc : Option PyError)
    (l : List (Except PyError α)) :
    tryResolveAsyncGo acc l = tryResolveGo acc l := by
  induction l generalizing acc with
  | nil => rfl
  | cons r rest ih =>
      cases r with
      | ok v => rfl
      | error e =>
          cases h : isRecoverable e <;>
            simp [tryResolveAsyncGo, tryResolveGo, h, ih]

/-- A prefix made of recoverable errors only changes the `last_exc`
accumulator: the loop walks past it. -/
lemma tryResolveGo_skip {α : Type} (xs : List (Except PyError α)) :
    ∀ (acc : Option PyError) (ys : List (Except PyError α)),
      (∀ r ∈ xs, ∃ e, r = Except.error e ∧ isRecoverable e = true) →
      ∃ acc', tryResolveGo acc (xs ++ ys) = tryResolveGo acc' ys := by
  induction xs with
  | nil => exact fun acc ys _ => ⟨acc, rfl⟩
  | cons x xs ih =>
      intro acc ys h
      obtain ⟨e, rfl, he⟩ := h x (List.mem_cons_self x xs)
      obtain ⟨acc', ha⟩ := ih (some e) ys
        (fun r hr => h r (List.mem_cons_of_mem _ hr))
      exact ⟨acc', by simpa [tryResolveGo, he] using ha⟩

/-- Each container of a recoverable-error prefix counts as one attempt. -/
lemma triedCount_skip {α : Type} (xs : List (Except PyError α)) :
    ∀ (ys : List (Except PyError α)),
      (∀ r ∈ xs, ∃ e, r = Except.error e ∧ isRecoverable e = true) →
      triedCount (xs ++ ys) = xs.length + triedCount ys := by
  induction xs with
  | nil => intro ys _; simp
  | cons x xs ih =>
      intro ys h
      obtain ⟨e, rfl, he⟩ := h x (List.mem_cons_self x xs)
      have := ih ys (fun r hr => h r (List.mem_cons_of_mem _ hr))
      simp [triedCount, he, this]
      omega

/-- If every container raises a recoverable error, the loop ends with
`last_exc` holding the error of the last container, whatever the
accumulator held before. -/
lemma tryResolveGo_all_rec_last {α : Type} (l : List (Except PyError α)) :
    ∀ (e : PyError) (acc : Option PyError),
      (∀ r ∈ l, ∃ e', r = Except.error e' ∧ isRecoverable e' = true) →
      l.getLast? = some (Except.error e) →
      tryResolveGo acc l = Except.error e := by
  induction l with
  | nil => intro e acc _ hl; simp at hl
  | cons x rest ih =>
      intro e acc h hl
      obtain ⟨e0, rfl, he0⟩ := h x (List.mem_cons_self x rest)
      cases rest with
      | nil =>
          simp [List.getLast?] at hl
          subst hl
          simp [tryResolveGo, he0]
      | cons y rest' =>
          have hl' : (y :: rest').getLast? = some (Except.error e) := by
            simpa [List.getLast?_cons_cons] using hl
          have := ih e (some e0)
            (fun r hr => h r (List.mem_cons_of_mem _ hr)) hl'
          simpa [tryResolveGo, he0] using this

/-! ## Claims -/

/-- C1: the multi-registry fallback resolver (both `_try_resolve_sync` and
`_try_resolve_async`) tries the registries in sequence order; a registry
that raises `DependencyNotFound` or `InvalidProvider` is skipped in favour
of the next one, while any other exception propagates immediately and no
later registry is tried (only the first `xs.length + 1` containers are
touched, whatever follows). -/
theorem fallback_order_and_nonrecoverable_aborts {α : Type}
    (xs ys : List (Except PyError α)) (e : PyError) (v : α)
    (hxs : ∀ r ∈ xs, ∃ e', r = Except.error e' ∧ isRecoverable e' = true)
    (he : isRecoverable e = false) :
    tryResolveSync (xs ++ Except.error e :: ys) = Except.error e ∧
    tryResolveAsync (xs ++ Except.error e :: ys) = Except.error e ∧
    triedCount (xs ++ Except.error e :: ys) = xs.length + 1 ∧
    tryResolveSync (xs ++ Except.ok v :: ys) = Except.ok v ∧
    tryResolveAsync (xs ++ Except.ok v :: ys) = Except.ok v ∧
    triedCount (xs ++ Except.ok v :: ys) = xs.length + 1 := by
  obtain ⟨acc₁, h₁⟩ := tryResolveGo_skip xs none (Except.error e :: ys) hxs
  obtain ⟨acc₂, h₂⟩ := tryResolveGo_skip xs none (Except.ok v :: ys) hxs
  refine ⟨?_, ?_, ?_, ?_, ?_, ?_⟩
  · rw [tryResolveSync, h₁]; simp [tryResolveGo, he]
  · rw [tryResolveAsync, tryResolveAsyncGo_eq_go, h₁]
    simp [tryResolveGo, he]
  · rw [triedCount_skip xs _ hxs]; simp [triedCount, he]
  · rw [tryResolveSync, h₂]; simp [tryResolveGo]
  · rw [tryResolveAsync, tryResolveAsyncGo_eq_go, h₂]
    simp [tryResolveGo]
  · rw [triedCount_skip xs _ hxs]; simp [triedCount]

/-- Witness for C1 at a concrete input: one registry failing with
`DependencyNotFound`, then one raising `CycleDetected`, then one that would
succeed but is never reached. -/
theorem fallback_order_and_nonrecoverable_aborts_witness :
    tryResolveSync [Except.error (PyError.dependencyNotFound 5),
        Except.error (PyError.cycleDetected 7), Except.ok (42 : Nat)]
      = Except.error (PyError.cycleDetected 7) ∧
    tryResolveAsync [Except.error (PyError.dependencyNotFound 5),
        Except.error (PyError.cycleDetected 7), Except.ok (42 : Nat)]
      = Except.error (PyError.cycleDetected 7) ∧
    triedCount [Except.error (PyError.dependencyNotFound 5),
        Except.error (PyError.cycleDetected 7), Except.ok (42 : Nat)]
      = [Except.error (α := Nat) (PyError.dependencyNotFound 5)].length + 1 ∧
    tryResolveSync [Except.error (PyError.dependencyNotFound 5),
        Except.ok (3 : Nat), Except.ok 42] = Except.ok 3 ∧
    tryResolveAsync [Except.error (PyError.dependencyNotFound 5),
        Except.ok (3 : Nat), Except.ok 42] = Except.ok 3 ∧
    triedCount [Except.error (PyError.dependencyNotFound 5),
        Except.ok (3 : Nat), Except.ok 42]
      = [Except.error (α := Nat) (PyError.dependencyNotFound 5)].length + 1 :=
  fallback_order_and_nonrecoverable_aborts
    [Except.error (PyError.dependencyNotFound 5)] [Except.ok 42]
    (PyError.cycleDetected 7) 3
    (by
      intro r hr
      simp only [List.mem_singleton] at hr
      exact ⟨PyError.dependencyNotFound 5, hr, rfl⟩)
    rfl

/-- C2: when every registry of a non-empty sequence fails with a
recoverable error, both fallback loops re-raise exactly the error of the
last registry; no earlier registry's recoverable error escapes. -/
theorem fallback_all_recoverable_reraises_last {α : Type}
    (l : List (Except PyError α)) (hne : l ≠ [])
    (h : ∀ r ∈ l, ∃ e, r = Except.error e ∧ isRecoverable e = true) :
    ∃ e, l.getLast? = some (Except.error e) ∧
      tryResolveSync l = Except.error e ∧
      tryResolveAsync l = Except.error e := by
  obtain ⟨e, he, _⟩ := h (l.getLast hne) (List.getLast_mem hne)
  have hl : l.getLast? = some (Except.error e) := by
    rw [List.getLast?_eq_getLast l hne, he]
  exact ⟨e, hl,
    tryResolveGo_all_rec_last l e none h hl,
    by rw [tryResolveAsync, tryResolveAsyncGo_eq_go]
       exact tryResolveGo_all_rec_last l e none h hl⟩

/-- Witness for C2 at a concrete input: two registries, both failing
recoverably; the second one's error is re-raised. -/
theorem fallback_all_recoverable_reraises_last_witness :
    ∃ e, [Except.error (α := Nat) (PyError.dependencyNotFound 3),
          Except.error (PyError.invalidProvider 4)].getLast?
        = some (Except.error e) ∧
      tryResolveSync [Except.error (α := Nat) (PyError.dependencyNotFound 3),
          Except.error (PyError.invalidProvider 4)] = Except.error e ∧
      tryResolveAsync [Except.error (α := Nat) (PyError.dependencyNotFound 3),
          Except.error (PyError.invalidProvider 4)] = Except.error e :=
  fallback_all_recoverable_reraises_last
    [Except.error (PyError.dependencyNotFound 3),
     Except.error (PyError.invalidProvider 4)]
    (by simp)
    (by
      intro r hr
      simp only [List.mem_cons, List.mem_singleton, List.not_mem_nil] at hr
      rcases hr with rfl | rfl | h
      · exact ⟨PyError.dependencyNotFound 3, rfl, rfl⟩
      · exact ⟨PyError.invalidProvider 4, rfl, rfl⟩
      · exact h.elim)

/-- C3: teardown actions of one ResolutionOperation run in exactly the
reverse order of acquisition — acquiring A then B then C tears down C, then
B, then A — and the teardown sequence is the same whether the wrapped call
returned, raised, or was cancelled. -/
theorem teardown_reverse_order {τ : Type} (A B C : τ)
    (outcome : CallOutcome) :
    (((((ResolutionOperation.opened : ResolutionOperation τ).acquire
        A).acquire B).acquire C).close outcome = [C, B, A]) ∧
    (∀ (op : ResolutionOperation τ) (o₁ o₂ : CallOutcome),
      op.close o₁ = op.close o₂) := by
  constructor
  · simp [ResolutionOperation.opened, ResolutionOperation.acquire,
      ResolutionOperation.close]
  · intro op o₁ o₂; rfl

/-- C4: the signature `inject` exposes on the wrapper is the original
callable's parameter list with exactly the dependency-marked parameters
removed, the rest kept in their original order (it is a filter, hence a
sublist); and the `_sig_cache` memo computes the residual signature once —
the first cached access computes it, the second returns the cached value
with no recomputation. -/
theorem inject_residual_signature (α : Type) (f : PyCallable)
    (h : (f.params.map Param.name).Nodup) :
    (inject α f).signature
      = f.params.filter (fun p => !p.hasDependencyMarker) ∧
    ((inject α f).signature).Sublist f.params ∧
    getNewSignatureCached none f.params
      = (newSignature f.params, some (newSignature f.params), 1) ∧
    getNewSignatureCached (some (newSignature f.params)) f.params
      = (newSignature f.params, some (newSignature f.params), 0) := by
  have key : ∀ p ∈ f.params,
      (decide (p.name ∉ extractDependencies f.params) : Bool)
        = !p.hasDependencyMarker := by
    intro p hp
    cases hm : p.hasDependencyMarker with
    | true =>
        have hmem : p.name ∈ extractDependencies f.params := by
          simp only [extractDependencies, List.mem_map, List.mem_filter]
          exact ⟨p, ⟨hp, hm⟩, rfl⟩
        simp [hmem]
    | false =>
        have hmem : p.name ∉ extractDependencies f.params := by
          intro hmem
          simp only [extractDependencies, List.mem_map,
            List.mem_filter] at hmem
          obtain ⟨q, ⟨hq, hqm⟩, hqn⟩ := hmem
          have hqp : q = p := List.inj_on_of_nodup_map h hq hp hqn
          rw [hqp, hm] at hqm
          exact Bool.false_ne_true hqm
        simp [hmem]
  refine ⟨?_, ?_, rfl, rfl⟩
  · show newSignature f.params = _
    exact List.filter_congr key
  · show (newSignature f.params).Sublist f.params
    exact List.filter_sublist _

/-- Witness for C4 at a concrete callable with parameters
`(a, dep: marked, b)`: the residual signature is `(a, b)`. -/
theorem inject_residual_signature_witness :
    (inject Nat ⟨1, false, [⟨"a", false⟩, ⟨"dep", true⟩,
        ⟨"b", false⟩]⟩).signature
      = List.filter (fun p => !p.hasDependencyMarker)
          [⟨"a", false⟩, ⟨"dep", true⟩, ⟨"b", false⟩] ∧
    ((inject Nat ⟨1, false, [⟨"a", false⟩, ⟨"dep", true⟩,
        ⟨"b", false⟩]⟩).signature).Sublist
      [⟨"a", false⟩, ⟨"dep", true⟩, ⟨"b", false⟩] ∧
    getNewSignatureCached none [⟨"a", false⟩, ⟨"dep", true⟩, ⟨"b", false⟩]
      = (newSignature [⟨"a", false⟩, ⟨"dep", true⟩, ⟨"b", false⟩],
         some (newSignature [⟨"a", false⟩, ⟨"dep", true⟩, ⟨"b", false⟩]),
         1) ∧
    getNewSignatureCached
        (some (newSignature [⟨"a", false⟩, ⟨"dep", true⟩, ⟨"b", false⟩]))
        [⟨"a", false⟩, ⟨"dep", true⟩, ⟨"b", false⟩]
      = (newSignature [⟨"a", false⟩, ⟨"dep", true⟩, ⟨"b", false⟩],
         some (newSignature [⟨"a", false⟩, ⟨"dep", true⟩, ⟨"b", false⟩]),
         0) :=
  inject_residual_signature Nat
    ⟨1, false, [⟨"a", false⟩, ⟨"dep", true⟩, ⟨"b", false⟩]⟩
    (by decide)

/-- C5: `inject` builds a coroutine-function wrapper exactly for coroutine
callables and a plain synchronous wrapper otherwise, the branch depending
only on `inspect.iscoroutinefunction`: callables agreeing on that flag get
the same wrapper shape. -/
theorem inject_sync_async_branch (α : Type) (f g : PyCallable)
    (hfg : f.isCoroutineFunction = g.isCoroutineFunction) :
    ((inject α f).form.isCoroutine = f.isCoroutineFunction) ∧
    ((inject α f).form = WrappedForm.asyncWrapper
        ↔ f.isCoroutineFunction = true) ∧
    (inject α f).form = (inject α g).form := by
  cases hf : f.isCoroutineFunction <;> cases hg : g.isCoroutineFunction <;>
    simp_all [inject, WrappedForm.isCoroutine]

/-- Witness for C5 at concrete callables: two synchronous callables with
different identities and signatures get the synchronous wrapper shape. -/
theorem inject_sync_async_branch_witness :
    ((inject Nat ⟨1, false, []⟩).form.isCoroutine
        = (⟨1, false, []⟩ : PyCallable).isCoroutineFunction) ∧
    ((inject Nat ⟨1, false, []⟩).form = WrappedForm.asyncWrapper
        ↔ (⟨1, false, []⟩ : PyCallable).isCoroutineFunction = true) ∧
    (inject Nat ⟨1, false, []⟩).form
      = (inject Nat ⟨2, false, [⟨"x", true⟩]⟩).form :=
  inject_sync_async_branch Nat ⟨1, false, []⟩ ⟨2, false, [⟨"x", true⟩]⟩ rfl

/-- C6: `_get_inner` is memoized per (container, callable) pair: a second
lookup with the same pair returns the identical inner wrapper object and
runs `container.injector()` zero further times, and a single lookup runs it
at most once. -/
theorem get_inner_memoized (st : InnerCacheState) (c f : Nat) :
    (getInner (getInner st c f).2 c f).1 = (getInner st c f).1 ∧
    (getInner (getInner st c f).2 c f).2.injectorCalls
      = (getInner st c f).2.injectorCalls ∧
    (getInner st c f).2.injectorCalls.length
      ≤ st.injectorCalls.length + 1 := by
  cases h : ((st.cache.lookup c).getD []).lookup f with
  | some inner =>
      simp [getInner, h, List.lookup]
  | none =>
      simp [getInner, h, List.lookup]

/-- C7: the global registry state is replaced wholesale by a successful
`init`, and a wrapper built while the global held any earlier value is the
very same wrapper (creation-time state is never read); when invoked it
resolves against the container value the global holds at invocation time. -/
theorem invocation_time_registry {α : Type} (f : PyCallable)
    (st₁ st₂ : Option PyValue) (cNew : PyValue)
    (behavior : PyValue → Except PyError α)
    (hc : isEmptyListOrTuple cNew = false) :
    injectAtTime α st₁ f = injectAtTime α st₂ f ∧
    init cNew st₁ = ⟨none, some cNew⟩ ∧
    (injectAtTime α st₁ f).call (init cNew st₁).state behavior
      = (if f.isCoroutineFunction then tryResolveAsync else tryResolveSync)
          ((normalizeContainers cNew).map behavior) := by
  refine ⟨rfl, by simp [init, hc], ?_⟩
  have hstate : (init cNew st₁).state = some cNew := by simp [init, hc]
  rw [hstate]
  cases hf : f.isCoroutineFunction <;>
    simp [injectAtTime, inject, getContainer, hf]

/-- Witness for C7 at a concrete input: a wrapper built before `init`
replaced the state with a new container resolves against that new
container. -/
theorem invocation_time_registry_witness :
    injectAtTime Nat none ⟨1, false, []⟩
      = injectAtTime Nat (some (PyValue.container 9)) ⟨1, false, []⟩ ∧
    init (PyValue.container 2) none = ⟨none, some (PyValue.container 2)⟩ ∧
    (injectAtTime Nat none ⟨1, false, []⟩).call
        (init (PyValue.container 2) none).state (fun _ => Except.ok 7)
      = (if (⟨1, false, []⟩ : PyCallable).isCoroutineFunction then
          tryResolveAsync else tryResolveSync)
          ((normalizeContainers (PyValue.container 2)).map
            (fun _ => Except.ok 7)) :=
  invocation_time_registry ⟨1, false, []⟩ none
    (some (PyValue.container 9)) (PyValue.container 2)
    (fun _ => Except.ok 7) rfl

/-- C8: invoking any wrapped callable while the global container is unset
raises the `RuntimeError` of `_get_container` — whichever containers could
have resolved it, no resolution step runs (the result is the same for every
possible container behaviour), and this holds on every such invocation. -/
theorem uninitialized_invocation_fails_fast (α : Type) (f : PyCallable)
    (behavior₁ behavior₂ : PyValue → Except PyError α) :
    (inject α f).call none behavior₁ = Except.error PyError.runtimeError ∧
    (inject α f).call none behavior₁ = (inject α f).call none behavior₂ := by
  cases hf : f.isCoroutineFunction <;>
    simp [inject, getContainer, hf]

/-- C9: `init` applied to an empty list or tuple of registries raises
`ValueError` during the `init` call itself and leaves the previously active
global state untouched, for every prior state. -/
theorem empty_sequence_init_error (st : Option PyValue) :
    init (PyValue.listVal []) st = ⟨some PyError.valueError, st⟩ ∧
    init (PyValue.tupleVal []) st = ⟨some PyError.valueError, st⟩ := by
  exact ⟨rfl, rfl⟩

/-- C10: only lists and tuples count as registry sequences: `init` raises
exactly on an empty list or tuple; any non-list, non-tuple value — a single
container or another sequence type, even an empty one — is stored unchanged
and later normalized into the one-element tuple holding that value itself,
while lists and tuples normalize to their own elements. -/
theorem only_list_tuple_are_sequences (v : PyValue) (st : Option PyValue) :
    ((init v st).raised ≠ none ↔ isEmptyListOrTuple v = true) ∧
    (isListOrTuple v = false →
      init v st = ⟨none, some v⟩ ∧ normalizeContainers v = [v]) ∧
    (∀ cs, normalizeContainers (PyValue.listVal cs) = cs ∧
      normalizeContainers (PyValue.tupleVal cs) = cs) ∧
    (∀ i cs, isEmptyListOrTuple (PyValue.otherSeq i cs) = false) := by
  refine ⟨?_, ?_, fun cs => ⟨rfl, rfl⟩, fun i cs => rfl⟩
  · cases hv : isEmptyListOrTuple v <;> simp [init, hv]
  · intro hlt
    have he : isEmptyListOrTuple v = false := by
      cases v <;> simp_all [isListOrTuple, isEmptyListOrTuple]
    exact ⟨by simp [init, he], by
      cases v <;> simp_all [isListOrTuple, normalizeContainers]⟩

/-- Witness for C10 at a concrete input: an empty non-list, non-tuple
sequence object passes `init` unchanged and normalizes to the one-element
sequence holding itself. -/
theorem only_list_tuple_are_sequences_witness :
    ((init (PyValue.otherSeq 4 []) none).raised ≠ none
        ↔ isEmptyListOrTuple (PyValue.otherSeq 4 []) = true) ∧
    (isListOrTuple (PyValue.otherSeq 4 []) = false →
      init (PyValue.otherSeq 4 []) none
          = ⟨none, some (PyValue.otherSeq 4 [])⟩ ∧
        normalizeContainers (PyValue.otherSeq 4 [])
          = [PyValue.otherSeq 4 []]) ∧
    (∀ cs, normalizeContainers (PyValue.listVal cs) = cs ∧
      normalizeContainers (PyValue.tupleVal cs) = cs) ∧
    (∀ i cs, isEmptyListOrTuple (PyValue.otherSeq i cs) = false) :=
  only_list_tuple_are_sequences (PyValue.otherSeq 4 []) none

end Spritze
